import Mathlib

/-!
Verification development for the validAI debate arena core.

Shallow embedding of the repository's evidence system
(`src/arena/evidence_system.py`), judge (`src/agents/judge_agent.py`) and
debate orchestrator (`src/arena/debate_orchestrator.py`).  Python floats are
modelled as rationals (`ℚ`), Python strings as `String`, and the random draws
consumed by the orchestrator (`random.random()`, `random.randint`) are made
explicit inputs of the corresponding functions.
-/

namespace ValidAI

/-! ## Evidence system (`src/arena/evidence_system.py`) -/

/-- Evidence quality tiers (`EvidenceTier`).  The Python enum values are
PLATINUM=1, GOLD=2, SILVER=3, BRONZE=4. -/
inductive EvidenceTier where
  | PLATINUM
  | GOLD
  | SILVER
  | BRONZE
deriving DecidableEq

/-- Numeric value of the Python enum member (`EvidenceTier.PLATINUM.value = 1`, ...). -/
def EvidenceTier.value : EvidenceTier → ℕ
  | .PLATINUM => 1
  | .GOLD => 2
  | .SILVER => 3
  | .BRONZE => 4

/-- Structured evidence object (`Evidence` dataclass).  `extracted_data`
models the `Optional[Dict]` field: `none` for Python `None`, `some kvs`
for a dict with entries `kvs` (an empty dict is `some []`, which is falsy
in Python, matching `extracted_data_nonempty` below). -/
structure Evidence where
  claim : String
  source : String
  url : String
  tier : EvidenceTier
  relevance_score : ℚ
  recency_score : ℚ
  credibility_score : ℚ
  raw_text : String := ""
  extracted_data : Option (List (String × List String)) := none
deriving DecidableEq

/-- The `tier_weights` dict inside `Evidence.total_score`. -/
def tier_weights : EvidenceTier → ℚ
  | .PLATINUM => 10
  | .GOLD => 5
  | .SILVER => 2
  | .BRONZE => 1

/-- `Evidence.total_score`: `base_weight * relevance_score * recency_score * credibility_score`. -/
def Evidence.total_score (e : Evidence) : ℚ :=
  tier_weights e.tier * e.relevance_score * e.recency_score * e.credibility_score

/-- `EvidenceScorer.score_evidence_collection`: mean of total scores, `0.0`
for an empty list. -/
def score_evidence_collection (evidence_list : List Evidence) : ℚ :=
  if evidence_list.isEmpty then 0
  else (evidence_list.map Evidence.total_score).sum / evidence_list.length

/-- `EvidenceScorer.compare_evidence`: the if/elif chain comparing the two
total scores (the Python literal `1.5` is the rational `3/2`). -/
def compare_evidence (evidence1 evidence2 : Evidence) : String :=
  let score1 := evidence1.total_score
  let score2 := evidence2.total_score
  if score1 > score2 * (3/2) then "evidence1_dominates"
  else if score2 > score1 * (3/2) then "evidence2_dominates"
  else if score1 > score2 then "evidence1_wins"
  else if score2 > score1 then "evidence2_wins"
  else "draw"

/-! ### Validator helpers

Python's `word in text` substring test and `str.lower()` are modelled on
the character lists of the strings. -/

/-- Substring occurrence on character lists: `needle` occurs somewhere in
`hay` (Python's `needle in hay` for strings; the empty needle matches). -/
def substr_occurs : List Char → List Char → Bool
  | needle, [] => needle.isEmpty
  | needle, c :: rest => needle.isPrefixOf (c :: rest) || substr_occurs needle rest

/-- `needle in hay` where `hay` is an already-lowered character list. -/
def contains_sub (hay : List Char) (needle : String) : Bool :=
  substr_occurs needle.toList hay

/-- `str.lower()` (ASCII model), as a character list. -/
def lower_chars (s : String) : List Char :=
  s.toList.map Char.toLower

/-- `re.search(r'\d+', s)` is truthy iff some character of `s` is a digit
(ASCII model). -/
def has_digit (s : String) : Bool :=
  s.toList.any Char.isDigit

/-- Python truthiness of the `extracted_data` field: `None` and `{}` are
falsy, a non-empty dict is truthy. -/
def extracted_data_nonempty : Option (List (String × List String)) → Bool
  | none => false
  | some kvs => !kvs.isEmpty

/-- `EvidenceValidator._check_has_source`. -/
def check_has_source (evidence : Evidence) : Bool × Option String :=
  if evidence.source = "" || evidence.source = "unknown" then
    (false, some "No valid source provided")
  else (true, none)

/-- The keyword list of `EvidenceValidator._check_has_data`. -/
def has_data_keywords : List String :=
  ["study", "report", "analysis", "data"]

/-- `EvidenceValidator._check_has_data`: when `extracted_data` is falsy the
claim must contain a digit (`re.search(r'\d+', ...)`, ASCII model) or one of
the keywords as a substring of the lower-cased claim; otherwise the rule
passes unconditionally. -/
def check_has_data (evidence : Evidence) : Bool × Option String :=
  if !extracted_data_nonempty evidence.extracted_data then
    let has_numbers := has_digit evidence.claim
    let has_specifics :=
      has_data_keywords.any (fun word => contains_sub (lower_chars evidence.claim) word)
    if !has_numbers && !has_specifics then
      (false, some "No specific data or metrics provided")
    else (true, none)
  else (true, none)

/-- The opinion-signal list of `EvidenceValidator._check_not_pure_opinion`. -/
def opinion_signals : List String :=
  ["i think", "i believe", "in my opinion", "i feel", "seems like"]

/-- `EvidenceValidator._check_not_pure_opinion`. -/
def check_not_pure_opinion (evidence : Evidence) : Bool × Option String :=
  if opinion_signals.any (fun signal => contains_sub (lower_chars evidence.claim) signal) then
    (false, some "Evidence appears to be opinion-based")
  else (true, none)

/-- `EvidenceValidator._check_recency`. -/
def check_recency (evidence : Evidence) : Bool × Option String :=
  if evidence.recency_score < 3/10 then (false, some "Evidence may be outdated")
  else (true, none)

/-- `EvidenceValidator._check_credibility`. -/
def check_credibility (evidence : Evidence) : Bool × Option String :=
  if evidence.credibility_score < 3/10 then (false, some "Source has low credibility")
  else (true, none)

/-- The validator's rule table, in the (insertion-ordered) dict order of
`EvidenceValidator.validation_rules`. -/
def validation_rule_results (evidence : Evidence) : List (Bool × Option String) :=
  [check_has_source evidence,
   check_has_data evidence,
   check_not_pure_opinion evidence,
   check_recency evidence,
   check_credibility evidence]

/-- One step of the issue-accumulation loop of
`EvidenceValidator.validate_evidence`: append the rule's issue when the
rule failed. -/
def issue_step (issues : List String) (r : Bool × Option String) : List String :=
  if r.1 then issues
  else issues ++ (match r.2 with | some i => [i] | none => [])

/-- The issue-accumulation loop of `EvidenceValidator.validate_evidence`. -/
def collect_issues (results : List (Bool × Option String)) : List String :=
  results.foldl issue_step []

/-- `EvidenceValidator.validate_evidence`: returns `(len(issues) == 0, issues)`;
the evidence record itself is never modified or dropped. -/
def validate_evidence (evidence : Evidence) : Bool × List String :=
  let issues := collect_issues (validation_rule_results evidence)
  (issues.isEmpty, issues)

/-! ## Judge (`src/agents/judge_agent.py`) -/

/-- `VerdictType` enum. -/
inductive VerdictType where
  | APPROVED
  | REJECTED
  | CONDITIONAL
  | NEEDS_RESEARCH
deriving DecidableEq

/-- `JudgePersonality` enum. -/
inductive JudgePersonality where
  | PRAGMATIST
  | INNOVATOR
  | USER_ADVOCATE
deriving DecidableEq

/-- The five scoring categories maintained by `JudgeAgent.evaluate_debate`
(the keys of its `scores` dict). -/
structure CategoryScores where
  technical_feasibility : ℚ
  roi : ℚ
  risk : ℚ
  innovation : ℚ
  user_impact : ℚ
deriving DecidableEq

/-- `JudgeAgent._get_scoring_weights`: the per-personality weight table
(Python decimals written as exact rationals). -/
def scoring_weights : JudgePersonality → CategoryScores
  | .PRAGMATIST => { technical_feasibility := 3/10, roi := 7/20, risk := 1/5,
                     innovation := 1/20, user_impact := 1/10 }
  | .INNOVATOR => { technical_feasibility := 3/20, roi := 1/5, risk := 1/10,
                    innovation := 7/20, user_impact := 1/5 }
  | .USER_ADVOCATE => { technical_feasibility := 3/20, roi := 3/20, risk := 1/10,
                        innovation := 1/10, user_impact := 1/2 }

/-- Sum of the five entries of a weight vector. -/
def weights_sum (w : CategoryScores) : ℚ :=
  w.technical_feasibility + w.roi + w.risk + w.innovation + w.user_impact

/-- One argument record as consumed by the judge: a dict with the keys
read by `evaluate_debate` / `render_verdict` (`evidence_tier`, `impact`,
`categories`, `severity`, `issue`, `cost_estimate`, `summary`). -/
structure JudgeArgument where
  evidence_tier : ℕ := 4
  impact : ℚ := 0
  categories : List String := []
  severity : Option String := none
  issue : String := ""
  cost_estimate : ℚ := 0
  summary : String := ""
deriving DecidableEq

/-- The tier-to-weight if/elif chain of `evaluate_debate`
(tier 1 → 1.0, 2 → 0.7, 3 → 0.4, otherwise 0.2). -/
def argument_weight (evidence_tier : ℕ) : ℚ :=
  if evidence_tier = 1 then 1
  else if evidence_tier = 2 then 7/10
  else if evidence_tier = 3 then 2/5
  else 1/5

/-- `scores[category] += delta` guarded by `if category in scores`:
category names outside the five fixed keys are ignored. -/
def add_to_category (s : CategoryScores) (category : String) (delta : ℚ) : CategoryScores :=
  if category = "technical_feasibility" then
    { s with technical_feasibility := s.technical_feasibility + delta }
  else if category = "roi" then { s with roi := s.roi + delta }
  else if category = "risk" then { s with risk := s.risk + delta }
  else if category = "innovation" then { s with innovation := s.innovation + delta }
  else if category = "user_impact" then { s with user_impact := s.user_impact + delta }
  else s

/-- Accumulate one side's arguments into the score dict; `sign` is `1` for
PRO (adds) and `-1` for CON (subtracts). -/
def accumulate_arguments (sign : ℚ) (args : List JudgeArgument)
    (s : CategoryScores) : CategoryScores :=
  args.foldl
    (fun s arg =>
      arg.categories.foldl
        (fun s category =>
          add_to_category s category (sign * (arg.impact * argument_weight arg.evidence_tier)))
        s)
    s

/-- The final normalisation of `evaluate_debate`:
`scores[category] = max(0, min(100, scores[category] + 50))`. -/
def recenter_clamp (x : ℚ) : ℚ :=
  max 0 (min 100 (x + 50))

/-- `JudgeAgent.evaluate_debate`.  The `evidence` parameter is accepted but,
as in the source, never read. -/
def evaluate_debate (pro_arguments con_arguments : List JudgeArgument)
    (evidence : List Evidence) : CategoryScores :=
  let s0 : CategoryScores := { technical_feasibility := 0, roi := 0, risk := 0,
                               innovation := 0, user_impact := 0 }
  let s1 := accumulate_arguments 1 pro_arguments s0
  let s2 := accumulate_arguments (-1) con_arguments s1
  { technical_feasibility := recenter_clamp s2.technical_feasibility,
    roi := recenter_clamp s2.roi,
    risk := recenter_clamp s2.risk,
    innovation := recenter_clamp s2.innovation,
    user_impact := recenter_clamp s2.user_impact }

/-- `JudgeAgent.calculate_final_score`: `Σ score * weight` over the five
categories. -/
def calculate_final_score (personality : JudgePersonality)
    (scores : CategoryScores) : ℚ :=
  let w := scoring_weights personality
  scores.technical_feasibility * w.technical_feasibility
    + scores.roi * w.roi
    + scores.risk * w.risk
    + scores.innovation * w.innovation
    + scores.user_impact * w.user_impact

/-- The `critical_blockers` list of `JudgeAgent.determine_verdict`. -/
def critical_blockers : List String :=
  ["security_breach_risk", "legal_violation", "data_loss_potential",
   "negative_roi_guaranteed"]

/-- `JudgeAgent.determine_verdict`. -/
def determine_verdict (final_score : ℚ) (critical_issues : List String) : VerdictType :=
  if !critical_issues.isEmpty
      && critical_blockers.any (fun blocker => critical_issues.contains blocker) then
    .REJECTED
  else if final_score ≥ 70 then .APPROVED
  else if final_score ≥ 50 then .CONDITIONAL
  else if final_score ≥ 40 then .NEEDS_RESEARCH
  else .REJECTED

/-- The critical-issue extraction of `render_verdict`:
`[arg["issue"] for arg in con_arguments if arg.get("severity") == "critical"]`. -/
def critical_issues_of (con_arguments : List JudgeArgument) : List String :=
  (con_arguments.filter (fun arg => arg.severity = some "critical")).map JudgeArgument.issue

/-- The numeric core of the `Verdict` produced by `render_verdict`
(presentation-only fields — prose key factors, winning/losing summaries,
alternative suggestion, savings — are omitted; `final_score` and
`category_scores` are the corresponding internal values, exposed for
verification). -/
structure JudgeVerdict where
  decision : VerdictType
  confidence : ℚ
  final_score : ℚ
  category_scores : CategoryScores
deriving DecidableEq

/-- `JudgeAgent.render_verdict` (numeric pipeline): evaluate the debate,
compute the weighted final score, extract critical issues, determine the
verdict, and set `confidence = min(100, abs(final_score - 50) * 2)`. -/
def render_verdict (personality : JudgePersonality) (requirement : String)
    (pro_arguments con_arguments : List JudgeArgument)
    (evidence_summary : List Evidence) : JudgeVerdict :=
  let scores := evaluate_debate pro_arguments con_arguments evidence_summary
  let final_score := calculate_final_score personality scores
  let critical_issues := critical_issues_of con_arguments
  let verdict_type := determine_verdict final_score critical_issues
  { decision := verdict_type,
    confidence := min 100 (|final_score - 50| * 2),
    final_score := final_score,
    category_scores := scores }

/-! ## Debate orchestrator (`src/arena/debate_orchestrator.py`)

The orchestrator's confidence arithmetic is deterministic once the random
draws are fixed, so the embedding passes them in explicitly: each evidence
duel round consumes the two `random.randint(1, 4)` tiers from
`_gather_evidence` and the two `random.random()` draws from
`_attempt_objection`.  Every `_update_confidence` emission (the external
`confidence_update` event) is recorded verbatim in a trace, as is every
phase assignment. -/

/-- `DebatePhase` enum. -/
inductive DebatePhase where
  | PRE_BATTLE
  | OPENING_STATEMENTS
  | EVIDENCE_DUEL
  | CROSS_EXAMINATION
  | FINAL_ARGUMENTS
  | JUDGMENT
  | COMPLETE
deriving DecidableEq

/-- The two debating sides. -/
inductive Team where
  | PRO
  | CON
deriving DecidableEq

/-- The default configuration dict of `DebateOrchestrator.__init__`
(`0.7` and `0.5` written as exact rationals). -/
structure OrchConfig where
  max_rounds : ℕ := 4
  time_per_round : ℕ := 45
  evidence_weight_multiplier : ℚ := 3/2
  objection_threshold : ℚ := 7/10
  dramatic_moment_threshold : ℚ := 20
  enable_special_effects : Bool := true
  streaming_delay : ℚ := 1/2
deriving DecidableEq

/-- The orchestrator built with `debate_config = None` keeps exactly the
defaults. -/
def default_config : OrchConfig := {}

/-- `DebateState` dataclass with its field defaults.  The `transcript` and
`evidence_presented` lists are carried for fidelity; the source never
appends to them (events go to the queue instead), nor to `objections`. -/
structure DebateState where
  phase : DebatePhase := .PRE_BATTLE
  round_number : ℕ := 0
  pro_confidence : ℚ := 50
  con_confidence : ℚ := 50
  pro_evidence_score : ℚ := 0
  con_evidence_score : ℚ := 0
  current_speaker : Option String := none
  transcript : List String := []
  evidence_presented : List String := []
  objections : List String := []
  dramatic_moments : List (ℕ × String × String) := []
deriving DecidableEq

/-- The state constructed by `DebateOrchestrator.__init__`
(`self.state = DebateState()`). -/
def initial_state : DebateState := {}

/-- Which branch `_run_final_arguments` takes after the knockout check. -/
inductive FinalPath where
  | knockout_con
  | knockout_pro
  | normal_finals
deriving DecidableEq

/-- A run trace: the mutable `self.state` plus instrumentation recording
every externally emitted `confidence_update` payload, every phase
assignment, and the branch taken in `FINAL_ARGUMENTS`. -/
structure RunTrace where
  state : DebateState
  confidence_reports : List (ℚ × ℚ) := []
  phases_entered : List DebatePhase := []
  final_path : Option FinalPath := none
deriving DecidableEq

/-- `self.state.phase = p`, recorded in the trace. -/
def set_phase (p : DebatePhase) (t : RunTrace) : RunTrace :=
  { t with state := { t.state with phase := p },
           phases_entered := t.phases_entered ++ [p] }

/-- `DebateOrchestrator._update_confidence`: emits the current (raw)
`pro_confidence` / `con_confidence` pair as a `confidence_update` event. -/
def update_confidence (t : RunTrace) : RunTrace :=
  { t with confidence_reports :=
      t.confidence_reports ++ [(t.state.pro_confidence, t.state.con_confidence)] }

/-- `DebateOrchestrator._initialize_debate` (state effects only): sets the
phase to `PRE_BATTLE`. -/
def init_debate (t : RunTrace) : RunTrace :=
  set_phase .PRE_BATTLE t

/-- `DebateOrchestrator._run_opening_statements`: each side's opening nudges
its confidence by `+5`, each followed by a `confidence_update`. -/
def run_opening_statements (t : RunTrace) : RunTrace :=
  let t := set_phase .OPENING_STATEMENTS t
  let t := { t with state := { t.state with round_number := 1 } }
  let t := { t with state := { t.state with pro_confidence := t.state.pro_confidence + 5 } }
  let t := update_confidence t
  let t := { t with state := { t.state with con_confidence := t.state.con_confidence + 5 } }
  update_confidence t

/-- `DebateOrchestrator._present_evidence`: `impact = (5 - tier) * 5`, added
to the presenting team's confidence and evidence-score accumulator, then a
`confidence_update` is emitted. -/
def present_evidence (team : Team) (tier : ℕ) (t : RunTrace) : RunTrace :=
  let impact : ℚ := (5 - (tier : ℚ)) * 5
  let t := match team with
    | .PRO => { t with state := { t.state with
                  pro_confidence := t.state.pro_confidence + impact,
                  pro_evidence_score := t.state.pro_evidence_score + impact } }
    | .CON => { t with state := { t.state with
                  con_confidence := t.state.con_confidence + impact,
                  con_evidence_score := t.state.con_evidence_score + impact } }
  update_confidence t

/-- The firing test of `DebateOrchestrator._attempt_objection`: the early
`return` happens when `random.random() > objection_threshold`, so the
objection fires exactly when the draw is not above the threshold. -/
def objection_fires (threshold draw : ℚ) : Bool :=
  if draw > threshold then false else true

/-- Real-valued version of the same test, for measuring the set of firing
draws of `random.random()` (uniform on `[0,1)`). -/
def objection_fires_real (threshold draw : ℝ) : Prop :=
  ¬ (draw > threshold)

/-- `DebateOrchestrator._attempt_objection`: `objecting_team` is the `team`
argument of the source (the side raising the objection).  When the objection
fires, `10` is subtracted from the *other* side's confidence — the side that
presented the weak evidence — followed by a `confidence_update`. -/
def attempt_objection (cfg : OrchConfig) (draw : ℚ) (objecting_team : Team)
    (t : RunTrace) : RunTrace :=
  if draw > cfg.objection_threshold then t
  else
    let t := match objecting_team with
      | .PRO => { t with state := { t.state with
                    con_confidence := t.state.con_confidence - 10 } }
      | .CON => { t with state := { t.state with
                    pro_confidence := t.state.pro_confidence - 10 } }
    update_confidence t

/-- `DebateOrchestrator._check_dramatic_moment`: when the absolute confidence
gap exceeds the threshold, record a momentum-shift dramatic moment. -/
def check_dramatic_moment (cfg : OrchConfig) (t : RunTrace) : RunTrace :=
  let confidence_diff := |t.state.pro_confidence - t.state.con_confidence|
  if confidence_diff > cfg.dramatic_moment_threshold then
    let leading_team := if t.state.pro_confidence > t.state.con_confidence
      then "PRO" else "CON"
    { t with state := { t.state with dramatic_moments :=
        t.state.dramatic_moments
          ++ [(t.state.round_number, "momentum_shift", leading_team)] } }
  else t

/-- The random draws consumed by one iteration of the evidence-duel loop:
the PRO and CON evidence tiers (`random.randint(1, 4)`) and the two
objection draws (`random.random()`; a draw is only consumed when the
corresponding tier is ≥ 3). -/
structure DuelRound where
  pro_tier : ℕ := 4
  pro_draw : ℚ := 1
  con_tier : ℕ := 4
  con_draw : ℚ := 1
deriving DecidableEq

/-- One iteration of the `for i in range(evidence_rounds)` loop of
`_run_evidence_duel`: PRO presents, CON may object to weak (tier ≥ 3) PRO
evidence, then the same with sides swapped, then the dramatic-moment
check. -/
def duel_round (cfg : OrchConfig) (r : DuelRound) (t : RunTrace) : RunTrace :=
  let t := present_evidence .PRO r.pro_tier t
  let t := if r.pro_tier ≥ 3 then attempt_objection cfg r.con_draw .CON t else t
  let t := present_evidence .CON r.con_tier t
  let t := if r.con_tier ≥ 3 then attempt_objection cfg r.pro_draw .PRO t else t
  check_dramatic_moment cfg t

/-- `evidence_rounds = 3` in `_run_evidence_duel`. -/
def evidence_rounds : ℕ := 3

/-- `DebateOrchestrator._run_evidence_duel`: sets the phase and round, then
runs `evidence_rounds` iterations, reading one `DuelRound` of draws per
iteration. -/
def run_evidence_duel (cfg : OrchConfig) (draws : ℕ → DuelRound) (t : RunTrace) : RunTrace :=
  let t := set_phase .EVIDENCE_DUEL t
  let t := { t with state := { t.state with round_number := 2 } }
  (List.range evidence_rounds).foldl (fun t i => duel_round cfg (draws i) t) t

/-- `DebateOrchestrator._run_cross_examination`: questions and responses are
generated and emitted but, as in the source, the response-effectiveness
classification feeds nothing back into the confidence state. -/
def run_cross_examination (t : RunTrace) : RunTrace :=
  let t := set_phase .CROSS_EXAMINATION t
  { t with state := { t.state with round_number := 3 } }

/-- The knockout check of `_run_final_arguments` (lines 410–417):
`if pro_confidence < 10` → CON knockout, `elif con_confidence < 10` → PRO
knockout, `else` normal two-sided finals. -/
def final_arguments_path (s : DebateState) : FinalPath :=
  if s.pro_confidence < 10 then .knockout_con
  else if s.con_confidence < 10 then .knockout_pro
  else .normal_finals

/-- `DebateOrchestrator._run_final_arguments`: sets the phase and round,
takes the knockout check's branch (none of the three branches changes the
confidence state), and records which branch was taken. -/
def run_final_arguments (t : RunTrace) : RunTrace :=
  let t := set_phase .FINAL_ARGUMENTS t
  let t := { t with state := { t.state with round_number := 4 } }
  { t with final_path := some (final_arguments_path t.state) }

/-- `DebateOrchestrator._run_judgment`: sets the phase to `JUDGMENT`, obtains
the verdict, and sets the phase to `COMPLETE`.  It is invoked unconditionally
after `_run_final_arguments`, on the knockout paths as well as the normal
one. -/
def run_judgment (t : RunTrace) : RunTrace :=
  let t := set_phase .JUDGMENT t
  set_phase .COMPLETE t

/-- `DebateOrchestrator.analyze_requirement` (state dynamics): the fixed
phase pipeline. -/
def analyze_requirement (cfg : OrchConfig) (draws : ℕ → DuelRound) : RunTrace :=
  let t : RunTrace := { state := initial_state }
  let t := init_debate t
  let t := run_opening_statements t
  let t := run_evidence_duel cfg draws t
  let t := run_cross_examination t
  let t := run_final_arguments t
  run_judgment t

/-- The `debate_summary` numbers of `DebateOrchestrator._compile_results`. -/
structure CompiledResults where
  rounds : ℕ
  final_pro_confidence : ℚ
  final_con_confidence : ℚ
  pro_evidence_score : ℚ
  con_evidence_score : ℚ
  dramatic_moments : List (ℕ × String × String)
  objections_count : ℕ
deriving DecidableEq

/-- `DebateOrchestrator._compile_results`: the final result bundle reports
`self.state.pro_confidence` / `con_confidence` directly. -/
def compile_results (s : DebateState) : CompiledResults :=
  { rounds := s.round_number,
    final_pro_confidence := s.pro_confidence,
    final_con_confidence := s.con_confidence,
    pro_evidence_score := s.pro_evidence_score,
    con_evidence_score := s.con_evidence_score,
    dramatic_moments := s.dramatic_moments,
    objections_count := s.objections.length }

/-! ## Concrete inputs used by the theorems below -/

/-- Random draws for a run in which PRO always draws PLATINUM evidence and
CON always draws BRONZE evidence whose objection draw (0.9) stays above the
default threshold, so no objection fires. -/
def demo_draws : ℕ → DuelRound := fun _ =>
  { pro_tier := 1, pro_draw := 9/10, con_tier := 4, con_draw := 9/10 }

/-- A debate state in which both sides are below the knockout threshold. -/
def state_double_ko : DebateState := { pro_confidence := 5, con_confidence := 5 }

/-- A debate state in which only PRO is below the knockout threshold. -/
def state_pro_ko : DebateState := { pro_confidence := 5, con_confidence := 60 }

/-- A debate state in which only CON is below the knockout threshold. -/
def state_con_ko : DebateState := { pro_confidence := 60, con_confidence := 5 }

/-- Evidence with total score `5 * 3/4 = 15/4`. -/
def ev_a : Evidence :=
  { claim := "a"
    source := "s"
    url := "u"
    tier := .GOLD
    relevance_score := 3/4
    recency_score := 1
    credibility_score := 1 }

/-- Evidence with total score `5 * 1/2 = 5/2`; `ev_a`'s score is exactly
1.5 times this one's. -/
def ev_b : Evidence :=
  { claim := "b"
    source := "s"
    url := "u"
    tier := .GOLD
    relevance_score := 1/2
    recency_score := 1
    credibility_score := 1 }

/-- Evidence whose claim has no digit and none of the `has_data` keywords,
but whose `extracted_data` dict is non-empty. -/
def ev_extracted_only : Evidence :=
  { claim := "the system works well"
    source := "arxiv.org"
    url := "u"
    tier := .PLATINUM
    relevance_score := 1
    recency_score := 1
    credibility_score := 9/10
    extracted_data := some [("percentages", ["50"])] }

/-- Evidence whose claim has no digit, no `has_data` keyword, and no
extracted data, so the `has_data` rule fails on it. -/
def ev_no_data : Evidence :=
  { claim := "it is great"
    source := "arxiv.org"
    url := "u"
    tier := .PLATINUM
    relevance_score := 1
    recency_score := 1
    credibility_score := 9/10 }

/-- A CON argument carrying a critical blocker issue. -/
def arg_security_critical : JudgeArgument :=
  { evidence_tier := 2
    impact := 30
    categories := ["risk"]
    severity := some "critical"
    issue := "security_breach_risk" }

/-- A strong PRO argument, to show the critical-issue override ignores the
computed score. -/
def arg_strong_pro : JudgeArgument :=
  { evidence_tier := 1
    impact := 100
    categories := ["roi", "technical_feasibility", "user_impact"] }

/-! ## Helper lemmas -/

/-- A failed rule's issue string ends up in the folded issue list. -/
lemma mem_foldl_issue_step (results : List (Bool × Option String)) (acc : List String)
    (i : String) (h : (false, some i) ∈ results ∨ i ∈ acc) :
    i ∈ results.foldl issue_step acc := by
  induction results generalizing acc with
  | nil =>
    rcases h with h | h
    · cases h
    · exact h
  | cons r rest ih =>
    apply ih
    rcases h with h | h
    · rcases List.mem_cons.mp h with h | h
      · right
        rw [← h]
        simp [issue_step]
      · left
        exact h
    · right
      by_cases hr : r.1 <;> simp [issue_step, hr, h]

/-- When the `has_data` rule reports failure it returns exactly the
"No specific data or metrics provided" issue. -/
lemma check_has_data_false_eq (e : Evidence) (h : (check_has_data e).1 = false) :
    check_has_data e = (false, some "No specific data or metrics provided") := by
  cases hb : extracted_data_nonempty e.extracted_data <;>
    cases hd : has_digit e.claim <;>
      cases hs : has_data_keywords.any (fun w => contains_sub (lower_chars e.claim) w) <;>
        simp_all [check_has_data]

/-- If a blocker string occurs among the critical issues, `determine_verdict`
returns `REJECTED` whatever the score is. -/
lemma determine_verdict_blocker (final_score : ℚ) (critical_issues : List String)
    (b : String) (hb : b ∈ critical_blockers) (hi : b ∈ critical_issues) :
    determine_verdict final_score critical_issues = .REJECTED := by
  unfold determine_verdict
  rw [if_pos]
  simp only [Bool.and_eq_true, Bool.not_eq_true', List.any_eq_true]
  constructor
  · rcases critical_issues with _ | ⟨x, xs⟩
    · cases hi
    · rfl
  · exact ⟨b, hb, by simpa using hi⟩

/-! ## Claims -/

/-- C10 (confirmed): every evaluation run begins from the fixed initial
Debate State — phase `PRE_BATTLE`, round 0, both confidences 50, both
evidence scores 0, and empty transcript / evidence / objection /
dramatic-moment sequences — and the default dramatic-moment threshold is
20 while the knockout comparison at 10 leaves the initial state on the
normal-finals path. -/
theorem initial_debate_state_spec :
    initial_state.phase = .PRE_BATTLE
      ∧ initial_state.round_number = 0
      ∧ initial_state.pro_confidence = 50
      ∧ initial_state.con_confidence = 50
      ∧ initial_state.pro_evidence_score = 0
      ∧ initial_state.con_evidence_score = 0
      ∧ initial_state.transcript = []
      ∧ initial_state.evidence_presented = []
      ∧ initial_state.objections = []
      ∧ initial_state.dramatic_moments = []
      ∧ default_config.dramatic_moment_threshold = 20
      ∧ final_arguments_path initial_state = .normal_finals := by
  refine ⟨rfl, rfl, rfl, rfl, rfl, rfl, rfl, rfl, rfl, rfl, rfl, ?_⟩
  norm_num [final_arguments_path, initial_state]

/-- C6 (confirmed): every Evidence Record's `total_score` is
`tier_weight(tier) * relevance * recency * credibility`, with the weights
PLATINUM→10, GOLD→5, SILVER→2, BRONZE→1 — strictly decreasing as the tier
number increases from 1 to 4. -/
theorem evidence_total_score_formula :
    (∀ e : Evidence,
        e.total_score
          = tier_weights e.tier * e.relevance_score * e.recency_score * e.credibility_score)
      ∧ tier_weights .PLATINUM = 10 ∧ tier_weights .GOLD = 5
      ∧ tier_weights .SILVER = 2 ∧ tier_weights .BRONZE = 1
      ∧ EvidenceTier.PLATINUM.value = 1 ∧ EvidenceTier.GOLD.value = 2
      ∧ EvidenceTier.SILVER.value = 3 ∧ EvidenceTier.BRONZE.value = 4
      ∧ tier_weights .GOLD < tier_weights .PLATINUM
      ∧ tier_weights .SILVER < tier_weights .GOLD
      ∧ tier_weights .BRONZE < tier_weights .SILVER := by
  refine ⟨fun e => rfl, rfl, rfl, rfl, rfl, rfl, rfl, rfl, rfl, ?_, ?_, ?_⟩ <;>
    norm_num [tier_weights]

/-- C4 (confirmed): with zero PRO arguments, zero CON arguments and zero
evidence, each personality's weight vector sums to 1, every category score
recenters to 50, the final score is 50 for every judge personality, the
verdict is `CONDITIONAL`, and the confidence is 0. -/
theorem judge_neutral_inputs_conditional_verdict :
    (∀ p : JudgePersonality, weights_sum (scoring_weights p) = 1)
      ∧ evaluate_debate [] [] []
          = { technical_feasibility := 50, roi := 50, risk := 50,
              innovation := 50, user_impact := 50 }
      ∧ (∀ p : JudgePersonality,
          (render_verdict p "" [] [] []).final_score = 50
            ∧ (render_verdict p "" [] [] []).decision = .CONDITIONAL
            ∧ (render_verdict p "" [] [] []).confidence = 0) := by
  refine ⟨?_, ?_, ?_⟩
  · intro p
    cases p <;> norm_num [weights_sum, scoring_weights]
  · norm_num [evaluate_debate, accumulate_arguments, recenter_clamp]
  · intro p
    cases p <;>
      norm_num [render_verdict, evaluate_debate, accumulate_arguments, recenter_clamp,
        calculate_final_score, scoring_weights, critical_issues_of, determine_verdict]

/-- C5 (confirmed): whenever some CON argument carries `severity = critical`
with an issue from the fixed blocker set, the rendered verdict's decision is
`REJECTED`, regardless of the computed final score. -/
theorem critical_blocker_forces_rejected :
    ∀ (personality : JudgePersonality) (requirement : String)
      (pro_arguments con_arguments : List JudgeArgument) (evidence : List Evidence),
      (∃ arg ∈ con_arguments,
          arg.severity = some "critical" ∧ arg.issue ∈ critical_blockers) →
      (render_verdict personality requirement pro_arguments con_arguments
          evidence).decision = .REJECTED := by
  rintro p req pro con ev ⟨arg, hmem, hsev, hblk⟩
  have hissue : arg.issue ∈ critical_issues_of con := by
    unfold critical_issues_of
    exact List.mem_map_of_mem _ (List.mem_filter.mpr ⟨hmem, by simp [hsev]⟩)
  simp only [render_verdict]
  exact determine_verdict_blocker _ _ arg.issue hblk hissue

/-- C5 witness: a CON argument flagged `severity: critical` with issue
`security_breach_risk` forces `REJECTED` even next to a strong PRO
argument. -/
theorem critical_blocker_forces_rejected_witness :
    (render_verdict .PRAGMATIST "req" [arg_strong_pro] [arg_security_critical]
        []).decision = .REJECTED :=
  critical_blocker_forces_rejected .PRAGMATIST "req" [arg_strong_pro]
    [arg_security_critical] []
    ⟨arg_security_critical, by simp, by simp [arg_security_critical],
      by simp [arg_security_critical, critical_blockers]⟩

/-- C9 (confirmed): the judge's numeric verdict pipeline is deterministic —
equal argument lists, equal evidence and equal personality give identical
`final_score`, `decision` and `confidence` (the requirement string is not
even read by the numeric pipeline). -/
theorem judge_verdict_deterministic :
    ∀ (p₁ p₂ : JudgePersonality) (req₁ req₂ : String)
      (pro₁ pro₂ con₁ con₂ : List JudgeArgument) (ev₁ ev₂ : List Evidence),
      p₁ = p₂ → pro₁ = pro₂ → con₁ = con₂ → ev₁ = ev₂ →
      (render_verdict p₁ req₁ pro₁ con₁ ev₁).final_score
          = (render_verdict p₂ req₂ pro₂ con₂ ev₂).final_score
        ∧ (render_verdict p₁ req₁ pro₁ con₁ ev₁).decision
            = (render_verdict p₂ req₂ pro₂ con₂ ev₂).decision
        ∧ (render_verdict p₁ req₁ pro₁ con₁ ev₁).confidence
            = (render_verdict p₂ req₂ pro₂ con₂ ev₂).confidence := by
  intro p₁ p₂ req₁ req₂ pro₁ pro₂ con₁ con₂ ev₁ ev₂ hp hpro hcon hev
  subst hp; subst hpro; subst hcon; subst hev
  exact ⟨rfl, rfl, rfl⟩

/-- C9 witness: determinism instantiated on a concrete argument set. -/
theorem judge_verdict_deterministic_witness :
    (render_verdict .PRAGMATIST "a" [arg_strong_pro] [arg_security_critical]
          [ev_a]).final_score
        = (render_verdict .PRAGMATIST "b" [arg_strong_pro] [arg_security_critical]
            [ev_a]).final_score
      ∧ (render_verdict .PRAGMATIST "a" [arg_strong_pro] [arg_security_critical]
            [ev_a]).decision
          = (render_verdict .PRAGMATIST "b" [arg_strong_pro] [arg_security_critical]
              [ev_a]).decision
      ∧ (render_verdict .PRAGMATIST "a" [arg_strong_pro] [arg_security_critical]
            [ev_a]).confidence
          = (render_verdict .PRAGMATIST "b" [arg_strong_pro] [arg_security_critical]
              [ev_a]).confidence :=
  judge_verdict_deterministic .PRAGMATIST .PRAGMATIST "a" "b"
    [arg_strong_pro] [arg_strong_pro] [arg_security_critical] [arg_security_critical]
    [ev_a] [ev_a] rfl rfl rfl rfl

/-- C1 counterexample: the claim that every externally reported confidence
value lies in [0,100] fails on a concrete run — after three PLATINUM PRO
presentations the orchestrator emits a `confidence_update` event carrying
pro-confidence 115. -/
theorem confidence_report_exceeds_range :
    ((115 : ℚ), (65 : ℚ))
        ∈ (analyze_requirement default_config demo_draws).confidence_reports
      ∧ (100 : ℚ) < 115
      ∧ (compile_results
            (analyze_requirement default_config demo_draws).state).final_pro_confidence
          = 115 := by
  refine ⟨?_, by norm_num, ?_⟩ <;>
    norm_num [analyze_requirement, init_debate, run_opening_statements, run_evidence_duel,
      evidence_rounds, List.range, List.range.loop, duel_round, present_evidence,
      attempt_objection, check_dramatic_moment, update_confidence, set_phase,
      run_cross_examination, run_final_arguments, final_arguments_path, run_judgment,
      initial_state, default_config, demo_draws, compile_results]

/-- C1 (corrected): confidence values are reported externally without any
clamping — `confidence_update` events and the compiled result bundle carry
the raw running sums (as does the knockout comparison), and those sums can
leave [0,100]: the demo run reports pro-confidence 115 mid-run and in its
final bundle. -/
theorem confidence_reported_unclamped :
    (∀ s : DebateState,
        (compile_results s).final_pro_confidence = s.pro_confidence
          ∧ (compile_results s).final_con_confidence = s.con_confidence)
      ∧ (∀ t : RunTrace,
          (update_confidence t).confidence_reports
            = t.confidence_reports ++ [(t.state.pro_confidence, t.state.con_confidence)])
      ∧ ((115 : ℚ), (65 : ℚ))
          ∈ (analyze_requirement default_config demo_draws).confidence_reports
      ∧ (100 : ℚ) < 115 := by
  refine ⟨fun s => ⟨rfl, rfl⟩, fun t => rfl, ?_, by norm_num⟩
  norm_num [analyze_requirement, init_debate, run_opening_statements, run_evidence_duel,
    evidence_rounds, List.range, List.range.loop, duel_round, present_evidence,
    attempt_objection, check_dramatic_moment, update_confidence, set_phase,
    run_cross_examination, run_final_arguments, final_arguments_path, run_judgment,
    initial_state, default_config, demo_draws]

/-- C2 counterexample: with both sides below 10 (pro = con = 5) at the start
of `FINAL_ARGUMENTS`, `con_confidence < 10` holds and yet the CON-knockout
path is taken, not the PRO-knockout path the claim's symmetric clause
demands. -/
theorem double_knockout_takes_con_path :
    state_double_ko.con_confidence < 10
      ∧ final_arguments_path state_double_ko = .knockout_con
      ∧ final_arguments_path state_double_ko ≠ .knockout_pro := by
  have hpath : final_arguments_path state_double_ko = .knockout_con := by
    norm_num [final_arguments_path, state_double_ko]
  refine ⟨by norm_num [state_double_ko], hpath, ?_⟩
  rw [hpath]
  decide

/-- C2 (corrected): at the start of `FINAL_ARGUMENTS`, `pro_confidence < 10`
takes the CON-knockout path; `con_confidence < 10` takes the PRO-knockout
path only when additionally `pro_confidence ≥ 10` (the PRO check has
priority); otherwise the normal two-sided finals run; and in every case the
run then proceeds into `JUDGMENT` and on to `COMPLETE`. -/
theorem final_arguments_knockout_paths :
    (∀ s : DebateState,
        (s.pro_confidence < 10 → final_arguments_path s = .knockout_con)
          ∧ (10 ≤ s.pro_confidence → s.con_confidence < 10 →
              final_arguments_path s = .knockout_pro)
          ∧ (10 ≤ s.pro_confidence → 10 ≤ s.con_confidence →
              final_arguments_path s = .normal_finals))
      ∧ (∀ t : RunTrace,
          (run_judgment (run_final_arguments t)).phases_entered
            = t.phases_entered ++ [.FINAL_ARGUMENTS, .JUDGMENT, .COMPLETE]) := by
  constructor
  · intro s
    refine ⟨fun h1 => ?_, fun h1 h2 => ?_, fun h1 h2 => ?_⟩
    · simp [final_arguments_path, h1]
    · simp [final_arguments_path, not_lt.mpr h1, h2]
    · simp [final_arguments_path, not_lt.mpr h1, not_lt.mpr h2]
  · intro t
    simp [run_judgment, run_final_arguments, set_phase]

/-- C2 witness: the three knockout-check branches instantiated on concrete
states (PRO below 10; CON alone below 10; both at the initial 50). -/
theorem final_arguments_knockout_paths_witness :
    final_arguments_path state_pro_ko = .knockout_con
      ∧ final_arguments_path state_con_ko = .knockout_pro
      ∧ final_arguments_path initial_state = .normal_finals :=
  ⟨((final_arguments_knockout_paths.1 state_pro_ko).1 (by norm_num [state_pro_ko])),
   ((final_arguments_knockout_paths.1 state_con_ko).2.1 (by norm_num [state_con_ko])
      (by norm_num [state_con_ko])),
   ((final_arguments_knockout_paths.1 initial_state).2.2 (by norm_num [initial_state])
      (by norm_num [initial_state]))⟩

/-- C3 counterexample: with the default configuration the set of uniform
draws `r ∈ [0,1)` on which the objection fires is the interval
`[0, 0.7]`, of Lebesgue measure 7/10 — strictly more than the 3/10 the
claim asserts. -/
theorem objection_measure_is_seven_tenths :
    MeasureTheory.volume
        {r : ℝ | r ∈ Set.Ico (0 : ℝ) 1
            ∧ objection_fires_real ((default_config.objection_threshold : ℚ) : ℝ) r}
      = ENNReal.ofReal (7/10)
      ∧ ENNReal.ofReal (3/10) < ENNReal.ofReal (7/10) := by
  constructor
  · have hq : ((default_config.objection_threshold : ℚ) : ℝ) = 7/10 := by
      norm_num [default_config]
    have hset :
        {r : ℝ | r ∈ Set.Ico (0 : ℝ) 1
            ∧ objection_fires_real ((default_config.objection_threshold : ℚ) : ℝ) r}
          = Set.Icc (0 : ℝ) (7/10) := by
      ext r
      simp only [Set.mem_setOf_eq, Set.mem_Ico, Set.mem_Icc, objection_fires_real,
        not_lt, hq]
      constructor
      · rintro ⟨⟨h0, _⟩, h2⟩
        exact ⟨h0, h2⟩
      · rintro ⟨h0, h2⟩
        exact ⟨⟨h0, by linarith⟩, h2⟩
    rw [hset, Real.volume_Icc]
    norm_num
  · rw [ENNReal.ofReal_lt_ofReal_iff (by norm_num)]
    norm_num

/-- C3 (corrected): in `EVIDENCE_DUEL` the objection against tier ≥ 3
evidence fires exactly when the uniform draw is at most the configured
threshold — a 0.7-measure set of draws under the default configuration
(70%, not 30%) — and when it fires, exactly 10 is subtracted from the
presenting side's confidence, the objecting side's being unchanged. -/
theorem objection_fire_rate_and_penalty :
    (∀ draw : ℚ,
        objection_fires default_config.objection_threshold draw = true ↔ draw ≤ 7/10)
      ∧ MeasureTheory.volume
            {r : ℝ | r ∈ Set.Ico (0 : ℝ) 1
                ∧ objection_fires_real ((default_config.objection_threshold : ℚ) : ℝ) r}
          = ENNReal.ofReal (7/10)
      ∧ (∀ (cfg : OrchConfig) (draw : ℚ) (t : RunTrace),
          objection_fires cfg.objection_threshold draw = true →
            ((attempt_objection cfg draw .CON t).state.pro_confidence
                  = t.state.pro_confidence - 10
                ∧ (attempt_objection cfg draw .CON t).state.con_confidence
                    = t.state.con_confidence)
              ∧ ((attempt_objection cfg draw .PRO t).state.con_confidence
                    = t.state.con_confidence - 10
                  ∧ (attempt_objection cfg draw .PRO t).state.pro_confidence
                      = t.state.pro_confidence)) := by
  refine ⟨?_, ?_, ?_⟩
  · intro draw
    simp [objection_fires, default_config, not_lt]
  · have hq : ((default_config.objection_threshold : ℚ) : ℝ) = 7/10 := by
      norm_num [default_config]
    have hset :
        {r : ℝ | r ∈ Set.Ico (0 : ℝ) 1
            ∧ objection_fires_real ((default_config.objection_threshold : ℚ) : ℝ) r}
          = Set.Icc (0 : ℝ) (7/10) := by
      ext r
      simp only [Set.mem_setOf_eq, Set.mem_Ico, Set.mem_Icc, objection_fires_real,
        not_lt, hq]
      constructor
      · rintro ⟨⟨h0, _⟩, h2⟩
        exact ⟨h0, h2⟩
      · rintro ⟨h0, h2⟩
        exact ⟨⟨h0, by linarith⟩, h2⟩
    rw [hset, Real.volume_Icc]
    norm_num
  · intro cfg draw t hfires
    have hle : ¬ (draw > cfg.objection_threshold) := by
      by_contra hgt
      simp [objection_fires, hgt] at hfires
    refine ⟨⟨?_, ?_⟩, ?_, ?_⟩ <;>
      simp [attempt_objection, hle, update_confidence]

/-- C3 witness: at the concrete draw 1/2 the objection fires under the
default threshold and subtracts exactly 10 from the presenting side
starting from the initial state. -/
theorem objection_fire_rate_and_penalty_witness :
    ((1 : ℚ)/2 ≤ 7/10)
      ∧ (attempt_objection default_config (1/2) .CON
            { state := initial_state }).state.pro_confidence = 50 - 10
      ∧ (attempt_objection default_config (1/2) .PRO
            { state := initial_state }).state.con_confidence = 50 - 10 :=
  ⟨by norm_num,
   ((objection_fire_rate_and_penalty.2.2 default_config (1/2) { state := initial_state }
        ((objection_fire_rate_and_penalty.1 (1/2)).mpr (by norm_num))).1.1),
   ((objection_fire_rate_and_penalty.2.2 default_config (1/2) { state := initial_state }
        ((objection_fire_rate_and_penalty.1 (1/2)).mpr (by norm_num))).2.1)⟩

/-- C7 counterexample: at the dominance boundary — `ev_a`'s total score
(15/4) is exactly 1.5 times `ev_b`'s (5/2) — the comparison returns a
simple win, not the dominance the claim's `≥ 1.5×` condition demands. -/
theorem compare_evidence_boundary_not_dominance :
    ev_a.total_score = ev_b.total_score * (3/2)
      ∧ compare_evidence ev_a ev_b = "evidence1_wins"
      ∧ compare_evidence ev_a ev_b ≠ "evidence1_dominates" := by
  have hwin : compare_evidence ev_a ev_b = "evidence1_wins" := by
    norm_num [compare_evidence, Evidence.total_score, tier_weights, ev_a, ev_b]
  refine ⟨by norm_num [Evidence.total_score, tier_weights, ev_a, ev_b], hwin, ?_⟩
  rw [hwin]
  decide

/-- C7 (corrected): `compare_evidence` returns dominance only when one total
score strictly exceeds 1.5 times the other (the PRO-side check first); a
simple win when neither dominance test fires and one score is strictly
greater; and a draw when the scores are equal (given the scores are
non-negative, as they are for component scores in [0,1]). -/
theorem compare_evidence_cases :
    ∀ a b : Evidence,
      (a.total_score > b.total_score * (3/2) →
          compare_evidence a b = "evidence1_dominates")
        ∧ (a.total_score ≤ b.total_score * (3/2) →
            b.total_score > a.total_score * (3/2) →
            compare_evidence a b = "evidence2_dominates")
        ∧ (a.total_score ≤ b.total_score * (3/2) →
            b.total_score ≤ a.total_score * (3/2) →
            a.total_score > b.total_score →
            compare_evidence a b = "evidence1_wins")
        ∧ (a.total_score ≤ b.total_score * (3/2) →
            b.total_score ≤ a.total_score * (3/2) →
            b.total_score > a.total_score →
            compare_evidence a b = "evidence2_wins")
        ∧ (0 ≤ a.total_score → a.total_score = b.total_score →
            compare_evidence a b = "draw") := by
  intro a b
  refine ⟨fun h1 => ?_, fun h1 h2 => ?_, fun h1 h2 h3 => ?_, fun h1 h2 h3 => ?_,
    fun h0 heq => ?_⟩
  · simp only [compare_evidence]
    rw [if_pos h1]
  · simp only [compare_evidence]
    rw [if_neg (not_lt.mpr h1), if_pos h2]
  · simp only [compare_evidence]
    rw [if_neg (not_lt.mpr h1), if_neg (not_lt.mpr h2), if_pos h3]
  · simp only [compare_evidence]
    rw [if_neg (not_lt.mpr h1), if_neg (not_lt.mpr h2),
      if_neg (not_lt.mpr (le_of_lt h3)), if_pos h3]
  · simp only [compare_evidence]
    rw [if_neg, if_neg, if_neg, if_neg]
    · rw [heq]
      exact lt_irrefl _
    · rw [heq]
      exact lt_irrefl _
    · rw [heq]
      apply not_lt.mpr
      nlinarith
    · rw [heq]
      apply not_lt.mpr
      nlinarith

/-- C7 witness: the five comparison outcomes instantiated on concrete
evidence pairs built from `ev_a` (score 15/4) and `ev_b` (score 5/2). -/
theorem compare_evidence_cases_witness :
    compare_evidence ev_a ev_b = "evidence1_wins"
      ∧ compare_evidence ev_b ev_a = "evidence2_wins"
      ∧ compare_evidence ev_a ev_a = "draw" :=
  ⟨((compare_evidence_cases ev_a ev_b).2.2.1
      (by norm_num [Evidence.total_score, tier_weights, ev_a, ev_b])
      (by norm_num [Evidence.total_score, tier_weights, ev_a, ev_b])
      (by norm_num [Evidence.total_score, tier_weights, ev_a, ev_b])),
   ((compare_evidence_cases ev_b ev_a).2.2.2.1
      (by norm_num [Evidence.total_score, tier_weights, ev_a, ev_b])
      (by norm_num [Evidence.total_score, tier_weights, ev_a, ev_b])
      (by norm_num [Evidence.total_score, tier_weights, ev_a, ev_b])),
   ((compare_evidence_cases ev_a ev_a).2.2.2.2
      (by norm_num [Evidence.total_score, tier_weights, ev_a]) rfl)⟩

/-- C8 counterexample: a record whose claim has no digit and none of the
keywords, but whose `extracted_data` dict is non-empty, passes the
`has_data` rule — refuting the claimed "if and only if" on the claim
text alone. -/
theorem has_data_passes_without_digit_or_keyword :
    (check_has_data ev_extracted_only).1 = true
      ∧ has_digit ev_extracted_only.claim = false
      ∧ (has_data_keywords.any
          (fun w => contains_sub (lower_chars ev_extracted_only.claim) w)) = false := by
  decide

/-- C8 (corrected): the `has_data` rule passes iff the record has non-empty
`extracted_data` OR its claim contains a digit or one of the words "study",
"report", "analysis", "data"; when the rule fails the record is not dropped —
`validate_evidence` returns it flagged invalid with the accumulated issue
string. -/
theorem has_data_rule_characterisation :
    ∀ e : Evidence,
      ((check_has_data e).1
          = (extracted_data_nonempty e.extracted_data || has_digit e.claim
              || has_data_keywords.any (fun w => contains_sub (lower_chars e.claim) w)))
        ∧ ((check_has_data e).1 = false →
            (validate_evidence e).1 = false
              ∧ "No specific data or metrics provided" ∈ (validate_evidence e).2) := by
  intro e
  constructor
  · cases hb : extracted_data_nonempty e.extracted_data <;>
      cases hd : has_digit e.claim <;>
        cases hs : has_data_keywords.any (fun w => contains_sub (lower_chars e.claim) w) <;>
          simp [check_has_data, hb, hd, hs]
  · intro h
    have heq := check_has_data_false_eq e h
    have hmem : "No specific data or metrics provided"
        ∈ collect_issues (validation_rule_results e) := by
      apply mem_foldl_issue_step
      left
      simp [validation_rule_results, heq]
    refine ⟨?_, by simpa [validate_evidence] using hmem⟩
    simp only [validate_evidence]
    rcases hvr : collect_issues (validation_rule_results e) with _ | ⟨x, xs⟩
    · rw [hvr] at hmem
      cases hmem
    · rfl

/-- C8 witness: on a record with no extracted data, no digit and no keyword
in its claim, the rule fails and `validate_evidence` keeps the record while
flagging it invalid with the accumulated issue string. -/
theorem has_data_rule_characterisation_witness :
    (validate_evidence ev_no_data).1 = false
      ∧ "No specific data or metrics provided" ∈ (validate_evidence ev_no_data).2 :=
  (has_data_rule_characterisation ev_no_data).2 (by decide)

end ValidAI
